import Mathlib

/-!
Shallow embedding of the Tiki product scraper's crawl engine
(src/crawler.py and src/utils.py) and proofs about it.

The crawl engine is `TikiCrawler` in src/crawler.py: an asyncio crawler
with a retry/backoff state machine per identifier (`fetch_product`), an
adaptive rate estimator (`SmartRateLimiter`), a minimum-spacing gate
(`RequestSpacer`), a semaphore-bounded batch processor (`process_batch`),
per-batch flushing and checkpointing (`save_results`), and a sequential
batch loop (`run`).  Checkpoint persistence is `load_checkpoint` /
`save_checkpoint` in src/utils.py.

Modelling choices, all taken from the source:
* Each HTTP attempt's outcome is supplied by an oracle (`AttemptOutcome`):
  a 200 response with a JSON body, 404, 429, another non-2xx status, an
  `asyncio.TimeoutError`, or an `aiohttp.ClientError`.
* Wall-clock effects (spacer waits, retry sleeps, semaphore acquisition,
  request dispatch) are recorded in an event trace rather than performed.
* `asyncio.as_completed` makes completion order within a batch unordered;
  every per-identifier state mutation happens exactly once regardless of
  that order, and all properties proved here are order-insensitive, so the
  batch fold processes identifiers in list order.
* Python's `set` of strings is modelled as a `List String` used only
  through membership.
* `clean_description` (BeautifulSoup text extraction) and the User-Agent
  rotation affect only payload text and request headers; the description
  string is carried through unmodified.
* Floats appear only as delays; they are modelled as `ℚ` (0.1 becomes
  1/10, all other delay arithmetic is on small integers, exact in both).
-/

namespace Tiki

/-- The JSON body fields `fetch_product` reads from a 200 response
(crawler.py lines 140-147): `id`, `name`, `url_key`, `price`,
`description`, and the `base_url` of each element of `images`. -/
structure ProductData where
  id : Int
  name : String
  url_key : String
  price : Int
  description : String
  images : List String
deriving DecidableEq

/-- The dict `fetch_product` returns on HTTP 200 (crawler.py lines
140-147). -/
structure FetchResult where
  id : Int
  name : String
  url_key : String
  price : Int
  description : String
  images : List String
deriving DecidableEq

/-- Crawler.py lines 140-147: the record built from the response body. -/
def mkFetchResult (d : ProductData) : FetchResult :=
  { id := d.id, name := d.name, url_key := d.url_key, price := d.price,
    description := d.description, images := d.images }

/-- `self.error_count` (crawler.py line 95): one bucket per error kind. -/
structure ErrorCount where
  http_error : Nat
  network_error : Nat
  not_found : Nat
  rate_limit : Nat
deriving DecidableEq

/-- Python `sum(self.error_count.values())` (crawler.py line 266). -/
def ErrorCount.total (e : ErrorCount) : Nat :=
  e.http_error + e.network_error + e.not_found + e.rate_limit

/-- The four keys of `self.error_count`. -/
inductive ErrorKind
  | http_error
  | network_error
  | not_found
  | rate_limit
deriving DecidableEq

/-- `self.error_count[kind] += 1`. -/
def bumpError (e : ErrorCount) : ErrorKind → ErrorCount
  | .http_error => { e with http_error := e.http_error + 1 }
  | .network_error => { e with network_error := e.network_error + 1 }
  | .not_found => { e with not_found := e.not_found + 1 }
  | .rate_limit => { e with rate_limit := e.rate_limit + 1 }

/-- `SmartRateLimiter.get_delay` (crawler.py lines 19-23): with a positive
consecutive-rate-limit count the delay is `min(2 ** count, 60)` seconds,
otherwise the minimum 0.1 seconds. -/
def SmartRateLimiter.get_delay (c : Nat) : ℚ :=
  if 0 < c then min ((2 : ℚ) ^ c) 60 else 1 / 10

/-- `SmartRateLimiter.record_rate_limit` (crawler.py lines 25-27), the part
acting on `rate_limit_count`; `last_rate_limit_time` is wall clock and read
nowhere. -/
def SmartRateLimiter.record_rate_limit (c : Nat) : Nat := c + 1

/-- `SmartRateLimiter.record_success` (crawler.py lines 29-31). -/
def SmartRateLimiter.record_success (c : Nat) : Nat :=
  if 0 < c then max 0 (c - 1) else c

/-- The observable actions of one identifier's processing, in program
order: the `RequestSpacer` wait (crawler.py line 117), an HTTP dispatch
(line 135), a retry sleep (lines 161, 170, 178, 186), and the semaphore
acquisition/release wrapping `fetch_product` in `bound_fetch` (lines
214-216). -/
inductive Event
  | spacerWait
  | httpRequest (pid : String)
  | sleep (delay : ℚ)
  | semAcquire (pid : String)
  | semRelease (pid : String)
deriving DecidableEq

/-- What one HTTP attempt inside `fetch_product` observes: the branches of
crawler.py lines 136-189. -/
inductive AttemptOutcome
  | ok (data : ProductData)
  | notFound
  | rateLimited
  | otherStatus
  | timeout
  | connectionFault
deriving DecidableEq

/-- The crawler's mutable state touched by the claims: `self.done_ids`,
`self.results`, `self.total_success`, `self.error_count`,
`self.rate_limiter.rate_limit_count` and `self.last_completed_batch`
(crawler.py lines 82-98). -/
structure CrawlerState where
  done_ids : List String
  results : List FetchResult
  total_success : Nat
  error_count : ErrorCount
  rate_limit_count : Nat
  last_completed_batch : Nat
deriving DecidableEq

/-- What one call of `fetch_product` produces: the returned value, the
state after it, the trace of its observable actions, and how many HTTP
attempts it consumed. -/
structure FetchOutcome where
  result : Option FetchResult
  state : CrawlerState
  trace : List Event
  attempts : Nat
deriving DecidableEq

/-- The retry loop of `fetch_product` (crawler.py lines 122-195).  The
list holds the outcomes of the attempts still allowed, so Python's
`attempt < self.retry` is `¬ rest.isEmpty`.  `lastErr` is
`last_error_type`; the empty-list case is the code after the loop (lines
192-194), reachable only if the loop finishes all iterations without
returning. -/
def fetchLoop (pid : String) :
    CrawlerState → List AttemptOutcome → Option ErrorKind → FetchOutcome
  | st, [], lastErr =>
      { result := none,
        state :=
          match lastErr with
          | some k =>
              if k = .rate_limit then st
              else { st with error_count := bumpError st.error_count k }
          | none => st,
        trace := [], attempts := 0 }
  | st, out :: rest, _lastErr =>
      match out with
      | .ok data =>
          { result := some (mkFetchResult data),
            state := { st with
              total_success := st.total_success + 1,
              rate_limit_count := SmartRateLimiter.record_success st.rate_limit_count },
            trace := [.httpRequest pid], attempts := 1 }
      | .notFound =>
          { result := none,
            state := { st with error_count := bumpError st.error_count .not_found },
            trace := [.httpRequest pid], attempts := 1 }
      | .rateLimited =>
          let st1 := { st with
            rate_limit_count := SmartRateLimiter.record_rate_limit st.rate_limit_count }
          if rest.isEmpty then
            { result := none,
              state := { st1 with error_count := bumpError st1.error_count .rate_limit },
              trace := [.httpRequest pid], attempts := 1 }
          else
            let d := SmartRateLimiter.get_delay st1.rate_limit_count
            let r := fetchLoop pid st1 rest (some .rate_limit)
            { r with trace := .httpRequest pid :: .sleep d :: r.trace,
                     attempts := r.attempts + 1 }
      | .otherStatus =>
          if rest.isEmpty then
            { result := none,
              state := { st with error_count := bumpError st.error_count .http_error },
              trace := [.httpRequest pid], attempts := 1 }
          else
            let r := fetchLoop pid st rest (some .http_error)
            { r with trace := .httpRequest pid :: .sleep 1 :: r.trace,
                     attempts := r.attempts + 1 }
      | .timeout =>
          if rest.isEmpty then
            { result := none,
              state := { st with error_count := bumpError st.error_count .network_error },
              trace := [.httpRequest pid], attempts := 1 }
          else
            let r := fetchLoop pid st rest (some .network_error)
            { r with trace := .httpRequest pid :: .sleep 1 :: r.trace,
                     attempts := r.attempts + 1 }
      | .connectionFault =>
          if rest.isEmpty then
            { result := none,
              state := { st with error_count := bumpError st.error_count .network_error },
              trace := [.httpRequest pid], attempts := 1 }
          else
            let r := fetchLoop pid st rest (some .network_error)
            { r with trace := .httpRequest pid :: .sleep 1 :: r.trace,
                     attempts := r.attempts + 1 }

/-- `TikiCrawler.fetch_product` (crawler.py lines 112-195): return `None`
at once for an identifier already in `done_ids`; otherwise wait on the
`RequestSpacer` once and enter the retry loop with `range(self.retry + 1)`
attempts whose outcomes the oracle supplies. -/
def fetch_product (st : CrawlerState) (pid : String) (retry : Nat)
    (oracle : Nat → AttemptOutcome) : FetchOutcome :=
  if pid ∈ st.done_ids then
    { result := none, state := st, trace := [], attempts := 0 }
  else
    let r := fetchLoop pid st ((List.range (retry + 1)).map oracle) none
    { r with trace := .spacerWait :: r.trace }

/-- `bound_fetch` inside `process_batch` (crawler.py lines 214-216):
`async with sem: return await self.fetch_product(session, pid)` — the
semaphore is acquired before `fetch_product` runs and released after it
returns. -/
def bound_fetch (st : CrawlerState) (pid : String) (retry : Nat)
    (oracle : Nat → AttemptOutcome) : FetchOutcome :=
  let r := fetch_product st pid retry oracle
  { r with trace := .semAcquire pid :: r.trace ++ [.semRelease pid] }

/-- `self.done_ids.add x`: Python set insertion, membership-preserving. -/
def insertId (x : String) (l : List String) : List String :=
  if x ∈ l then l else l ++ [x]

/-- One step of the result loop in `process_batch` (crawler.py lines
221-232): run `bound_fetch`, and if it returned a record, count it for the
batch, append it to `self.results` and add `str(result["id"])` to
`self.done_ids`.  The accumulator is (state, `batch_success`, trace). -/
def processOne (retry : Nat) (oracle : String → Nat → AttemptOutcome)
    (acc : CrawlerState × Nat × List Event) (pid : String) :
    CrawlerState × Nat × List Event :=
  let r := bound_fetch acc.1 pid retry (oracle pid)
  match r.result with
  | some res =>
      ({ r.state with
          results := r.state.results ++ [res],
          done_ids := insertId (toString res.id) r.state.done_ids },
        acc.2.1 + 1, acc.2.2 ++ r.trace)
  | none => (r.state, acc.2.1, acc.2.2 ++ r.trace)

/-- `TikiCrawler.process_batch` (crawler.py lines 197-258): fetch every
identifier of the batch, then add `batch_success` to `self.total_success`
(line 258).  Returns the state, the batch's `batch_success`, and the
trace. -/
def process_batch (st : CrawlerState) (ids_batch : List String) (retry : Nat)
    (oracle : String → Nat → AttemptOutcome) : CrawlerState × Nat × List Event :=
  let f := ids_batch.foldl (processOne retry oracle) (st, 0, [])
  ({ f.1 with total_success := f.1.total_success + f.2.1 }, f.2.1, f.2.2)

/-! ## Checkpoint persistence (src/utils.py) and `save_results` / `run` -/

/-- The JSON values this system writes and reads. -/
inductive Json
  | str (s : String)
  | num (q : ℚ)
  | arr (elems : List Json)
  | obj (fields : List (String × Json))

/-- `self.error_count` as the JSON object `save_results` embeds in the
checkpoint (crawler.py line 285). -/
def errorCountJson (e : ErrorCount) : Json :=
  .obj [("http_error", .num e.http_error), ("network_error", .num e.network_error),
        ("not_found", .num e.not_found), ("rate_limit", .num e.rate_limit)]

/-- The `checkpoint_data` dict built in `save_results` (crawler.py lines
281-287). -/
structure CheckpointData where
  done_ids : List String
  last_completed_batch : Nat
  total_success : Nat
  error_count : ErrorCount
  timestamp : ℚ

/-- `checkpoint_data` as the Python dict value (crawler.py lines 281-287),
fields in insertion order. -/
def checkpointJson (cp : CheckpointData) : Json :=
  .obj [("done_ids", .arr (cp.done_ids.map .str)),
        ("last_completed_batch", .num cp.last_completed_batch),
        ("total_success", .num cp.total_success),
        ("error_count", errorCountJson cp.error_count),
        ("timestamp", .num cp.timestamp)]

/-- Python `list(x)`: the elements of a list, the keys of a dict (in
insertion order), the characters of a string; `list(number)` raises
`TypeError`, here `none`. -/
def pyList : Json → Option (List Json)
  | .arr xs => some xs
  | .obj fs => some (fs.map fun f => Json.str f.1)
  | .str s => some (s.toList.map fun c => Json.str (String.mk [c]))
  | .num _ => none

/-- `utils.save_checkpoint` (utils.py lines 14-16): writes
`json.dump(list(done_ids), f)` — whatever JSON value the caller hands in,
the file receives `list(...)` of it.  The one caller, `save_results`
(crawler.py line 288), hands in the `checkpoint_data` dict. -/
def save_checkpoint (v : Json) : Option Json :=
  (pyList v).map .arr

/-- `utils.load_checkpoint` (utils.py lines 8-12): returns
`set(json.load(f))` — a Python set of strings for a file holding an array
of strings, the set of keys for a file holding an object; `set()` of other
element shapes is unhashable or not produced here (`none`).  The result is
always a set, never a dict. -/
def load_checkpoint : Json → Option (List String)
  | .arr xs => xs.mapM fun j => match j with | .str s => some s | _ => none
  | .obj fs => some (fs.map Prod.fst)
  | _ => none

/-- The checkpoint dispatch of `TikiCrawler.__init__` (crawler.py lines
78-89) applied to an existing checkpoint file: `checkpoint_data =
load_checkpoint(path)` is always a Python set, so
`isinstance(checkpoint_data, dict)` is `False` and the legacy branch runs:
`done_ids = set(checkpoint_data)`, `last_completed_batch = 0`. -/
def initFromCheckpointFile (fileContents : Json) : Option (List String × Nat) :=
  (load_checkpoint fileContents).map fun s => (s, 0)

/-- One line of `logs/error_report.txt` (crawler.py lines 291-299): the
four error counts it interpolates and the interpolated success rate (as a
percentage). -/
structure ReportLine where
  batch_num : Nat
  http_error : Nat
  network_error : Nat
  not_found : Nat
  rate_limit : Nat
  success_rate : ℚ
deriving DecidableEq

/-- The files `save_results` writes: `output/products_{k:03d}.json`, the
checkpoint, and the appended report line. -/
structure SaveOutput where
  output_file : List FetchResult
  checkpoint_file : Option Json
  report_line : ReportLine

/-- `TikiCrawler.save_results` (crawler.py lines 260-299): dump
`self.results` to the batch-indexed output file; compute `success_rate =
len(results) / (len(results) + sum(error_count.values())) * 100` (or 0
when that denominator is 0) before clearing; clear `self.results`; set
`self.last_completed_batch = batch_num`; persist the `checkpoint_data`
dict through `utils.save_checkpoint`; append the report line built from
the (cumulative) `self.error_count` and `success_rate`.  `time.time()` is
the `timestamp` argument. -/
def save_results (st : CrawlerState) (batch_num : Nat) (timestamp : ℚ) :
    CrawlerState × SaveOutput :=
  let total_batch_results := st.results.length + st.error_count.total
  let success_rate : ℚ :=
    if 0 < total_batch_results
    then ((st.results.length : ℚ) / total_batch_results) * 100 else 0
  let st1 : CrawlerState := { st with results := [], last_completed_batch := batch_num }
  let cp : CheckpointData :=
    { done_ids := st1.done_ids, last_completed_batch := st1.last_completed_batch,
      total_success := st1.total_success, error_count := st1.error_count,
      timestamp := timestamp }
  let line : ReportLine :=
    { batch_num := batch_num,
      http_error := st.error_count.http_error,
      network_error := st.error_count.network_error,
      not_found := st.error_count.not_found,
      rate_limit := st.error_count.rate_limit,
      success_rate := success_rate }
  (st1, { output_file := st.results,
          checkpoint_file := save_checkpoint (checkpointJson cp),
          report_line := line })

/-- The observable actions of `TikiCrawler.run` (crawler.py lines
301-322): the per-identifier events of `process_batch` tagged with their
batch index, then the output flush, the checkpoint write and the report
append performed by `save_results`, in that program order. -/
inductive RunEvent
  | act (batch : Nat) (e : Event)
  | flush (batch : Nat)
  | checkpointWrite (batch : Nat)
  | reportAppend (batch : Nat)
deriving DecidableEq

/-- The batch a run event belongs to. -/
def RunEvent.batch : RunEvent → Nat
  | .act k _ => k
  | .flush k => k
  | .checkpointWrite k => k
  | .reportAppend k => k

/-- The start offsets Python's `range(0, len, bs)` yields for `bs > 0`
(crawler.py line 310): `0, bs, 2*bs, ...`, `ceil(len / bs)` of them. -/
def pyRangeStarts (len bs : Nat) : List Nat :=
  (List.range ((len + bs - 1) / bs)).map (· * bs)

/-- `numBatches len bs = ceil(len / bs)`: how many batch starts
`range(0, len, bs)` yields for `bs > 0`. -/
def numBatches (len bs : Nat) : Nat := (len + bs - 1) / bs

/-- The body of the loop in `TikiCrawler.run` (crawler.py lines 310-322),
iterating over the remaining start offsets: `current_batch_num =
i // batch_size + 1`; a batch with `current_batch_num <=
self.last_completed_batch` is skipped by `continue`; otherwise
`process_batch` runs on `ids[i : i + batch_size]` and `save_results`
completes before the loop moves on. -/
def runLoop (ids : List String) (bs retry : Nat)
    (oracle : String → Nat → AttemptOutcome) (ts : ℚ) :
    List Nat → CrawlerState → CrawlerState × List RunEvent
  | [], st => (st, [])
  | i :: rest, st =>
      let k := i / bs + 1
      if k ≤ st.last_completed_batch then
        runLoop ids bs retry oracle ts rest st
      else
        let pb := process_batch st ((ids.drop i).take bs) retry oracle
        let sv := save_results pb.1 k ts
        let r := runLoop ids bs retry oracle ts rest sv.1
        (r.1, pb.2.2.map (RunEvent.act k) ++
          [.flush k, .checkpointWrite k, .reportAppend k] ++ r.2)

/-- `TikiCrawler.run` (crawler.py lines 301-322) after the input CSV has
been read into `ids`. -/
def run (st : CrawlerState) (ids : List String) (bs retry : Nat)
    (oracle : String → Nat → AttemptOutcome) (ts : ℚ) :
    CrawlerState × List RunEvent :=
  runLoop ids bs retry oracle ts (pyRangeStarts ids.length bs) st

/-! ## Helper lemmas -/

/-- The retry loop never touches `done_ids`, `results` or
`last_completed_batch`, and its trace holds neither a spacer wait nor a
semaphore action: those happen outside it. -/
theorem fetchLoop_frame (pid : String) (outs : List AttemptOutcome) :
    ∀ (st : CrawlerState) (le : Option ErrorKind),
    (fetchLoop pid st outs le).state.done_ids = st.done_ids ∧
    (fetchLoop pid st outs le).state.results = st.results ∧
    (fetchLoop pid st outs le).state.last_completed_batch = st.last_completed_batch ∧
    Event.spacerWait ∉ (fetchLoop pid st outs le).trace ∧
    (∀ q, Event.semAcquire q ∉ (fetchLoop pid st outs le).trace) := by
  induction outs with
  | nil =>
      intro st le
      cases le with
      | none => simp [fetchLoop]
      | some k => cases k <;> simp [fetchLoop, bumpError]
  | cons out rest ih =>
      intro st le
      cases out with
      | ok data => simp [fetchLoop]
      | notFound => simp [fetchLoop, bumpError]
      | rateLimited =>
          simp only [fetchLoop]
          split
          · simp [bumpError]
          · obtain ⟨h1, h2, h3, h4, h5⟩ := ih _ (some .rate_limit)
            refine ⟨h1, h2, h3, ?_, ?_⟩ <;> simp_all
      | otherStatus =>
          simp only [fetchLoop]
          split
          · simp [bumpError]
          · obtain ⟨h1, h2, h3, h4, h5⟩ := ih _ (some .http_error)
            refine ⟨h1, h2, h3, ?_, ?_⟩ <;> simp_all
      | timeout =>
          simp only [fetchLoop]
          split
          · simp [bumpError]
          · obtain ⟨h1, h2, h3, h4, h5⟩ := ih _ (some .network_error)
            refine ⟨h1, h2, h3, ?_, ?_⟩ <;> simp_all
      | connectionFault =>
          simp only [fetchLoop]
          split
          · simp [bumpError]
          · obtain ⟨h1, h2, h3, h4, h5⟩ := ih _ (some .network_error)
            refine ⟨h1, h2, h3, ?_, ?_⟩ <;> simp_all

/-- `fetch_product` never touches `done_ids`, `results` or
`last_completed_batch`. -/
theorem fetch_product_frame (st : CrawlerState) (pid : String) (retry : Nat)
    (oracle : Nat → AttemptOutcome) :
    (fetch_product st pid retry oracle).state.done_ids = st.done_ids ∧
    (fetch_product st pid retry oracle).state.results = st.results ∧
    (fetch_product st pid retry oracle).state.last_completed_batch
      = st.last_completed_batch := by
  unfold fetch_product
  split
  · exact ⟨rfl, rfl, rfl⟩
  · obtain ⟨h1, h2, h3, _, _⟩ :=
      fetchLoop_frame pid ((List.range (retry + 1)).map oracle) st none
    exact ⟨h1, h2, h3⟩

/-- A constant 429 oracle turns the attempt list into a replicate. -/
theorem range_map_const (n : Nat) (o : AttemptOutcome) :
    (List.range n).map (fun _ => o) = List.replicate n o := by
  simp [List.map_const']

/-- The retry loop on a non-empty run of straight 429 outcomes: one
attempt per outcome, the `rate_limit` bucket bumped exactly once, no
record returned. -/
theorem fetchLoop_always429 (pid : String) (outs : List AttemptOutcome) :
    ∀ (st : CrawlerState) (le : Option ErrorKind),
    (∀ o ∈ outs, o = .rateLimited) → outs ≠ [] →
    (fetchLoop pid st outs le).attempts = outs.length ∧
    (fetchLoop pid st outs le).state.error_count
      = bumpError st.error_count .rate_limit ∧
    (fetchLoop pid st outs le).result = none := by
  induction outs with
  | nil => intro st le _ h; exact absurd rfl h
  | cons out rest ih =>
      intro st le hall _
      have hout : out = .rateLimited := hall out (by simp)
      subst hout
      by_cases hr : rest = []
      · subst hr; simp [fetchLoop]
      · have hne : rest.isEmpty = false := by
          simpa [List.isEmpty_iff] using hr
        simp only [fetchLoop, hne, Bool.false_eq_true, if_false]
        obtain ⟨h1, h2, h3⟩ :=
          ih { st with rate_limit_count :=
                 SmartRateLimiter.record_rate_limit st.rate_limit_count }
            (some .rate_limit)
            (fun o ho => hall o (List.mem_cons_of_mem _ ho)) hr
        refine ⟨?_, ?_, ?_⟩
        · simp [h1]
        · simpa using h2
        · simpa using h3

/-- A fresh crawler state: no checkpoint file, counters zero (crawler.py
lines 90-98). -/
def initState : CrawlerState :=
  { done_ids := [], results := [], total_success := 0,
    error_count := ⟨0, 0, 0, 0⟩, rate_limit_count := 0, last_completed_batch := 0 }

/-! ## Claim theorems -/

/-- C6: for every retry budget `n`, an identifier (not already completed)
whose every attempt receives HTTP 429 consumes exactly `n + 1` fetch
attempts and increments the `rate_limit` bucket of the error tally by
exactly 1, never more, over the whole retry chain; the other buckets are
untouched and no record is produced. -/
theorem C6_always_429_budget (st : CrawlerState) (pid : String) (n : Nat)
    (h : pid ∉ st.done_ids) :
    (fetch_product st pid n (fun _ => .rateLimited)).attempts = n + 1 ∧
    (fetch_product st pid n (fun _ => .rateLimited)).state.error_count.rate_limit
      = st.error_count.rate_limit + 1 ∧
    (fetch_product st pid n (fun _ => .rateLimited)).state.error_count.http_error
      = st.error_count.http_error ∧
    (fetch_product st pid n (fun _ => .rateLimited)).state.error_count.network_error
      = st.error_count.network_error ∧
    (fetch_product st pid n (fun _ => .rateLimited)).state.error_count.not_found
      = st.error_count.not_found ∧
    (fetch_product st pid n (fun _ => .rateLimited)).result = none := by
  have hmap : (List.range (n + 1)).map (fun _ => AttemptOutcome.rateLimited)
      = List.replicate (n + 1) .rateLimited := range_map_const (n + 1) _
  obtain ⟨h1, h2, h3⟩ :=
    fetchLoop_always429 pid (List.replicate (n + 1) .rateLimited) st none
      (fun o ho => List.eq_of_mem_replicate ho) (by simp)
  unfold fetch_product
  rw [if_neg h, hmap]
  simp only [List.length_replicate] at h1
  refine ⟨by simpa using h1, ?_, ?_, ?_, ?_, by simpa using h3⟩ <;>
    simp [h2, bumpError]

/-- C6 witness: the theorem at the fresh state, identifier "1", retry
budget 2. -/
theorem C6_witness :
    (fetch_product initState "1" 2 (fun _ => .rateLimited)).attempts = 2 + 1 ∧
    (fetch_product initState "1" 2 (fun _ => .rateLimited)).state.error_count.rate_limit
      = initState.error_count.rate_limit + 1 ∧
    (fetch_product initState "1" 2 (fun _ => .rateLimited)).state.error_count.http_error
      = initState.error_count.http_error ∧
    (fetch_product initState "1" 2 (fun _ => .rateLimited)).state.error_count.network_error
      = initState.error_count.network_error ∧
    (fetch_product initState "1" 2 (fun _ => .rateLimited)).state.error_count.not_found
      = initState.error_count.not_found ∧
    (fetch_product initState "1" 2 (fun _ => .rateLimited)).result = none :=
  C6_always_429_budget initState "1" 2 (by simp [initState])

/-- C7: an identifier (not already completed) whose first attempt receives
HTTP 404 consumes exactly 1 attempt, increments the `not_found` bucket by
exactly 1, leaves the other buckets untouched, and is never retried (no
retry sleep appears in its trace), regardless of the remaining retry
budget. -/
theorem C7_not_found_immediate (st : CrawlerState) (pid : String) (retry : Nat)
    (oracle : Nat → AttemptOutcome) (h1 : pid ∉ st.done_ids)
    (h2 : oracle 0 = .notFound) :
    (fetch_product st pid retry oracle).attempts = 1 ∧
    (fetch_product st pid retry oracle).state.error_count.not_found
      = st.error_count.not_found + 1 ∧
    (fetch_product st pid retry oracle).state.error_count.http_error
      = st.error_count.http_error ∧
    (fetch_product st pid retry oracle).state.error_count.network_error
      = st.error_count.network_error ∧
    (fetch_product st pid retry oracle).state.error_count.rate_limit
      = st.error_count.rate_limit ∧
    (fetch_product st pid retry oracle).result = none ∧
    (∀ d, Event.sleep d ∉ (fetch_product st pid retry oracle).trace) := by
  have hlist : (List.range (retry + 1)).map oracle
      = .notFound :: (List.range retry).map (fun i => oracle (i + 1)) := by
    rw [List.range_succ_eq_map]
    simp [h2, List.map_map, Function.comp_def]
  unfold fetch_product
  rw [if_neg h1, hlist]
  simp [fetchLoop, bumpError]

/-- C7 witness: the theorem at the fresh state, identifier "9", retry
budget 5, an oracle answering 404 to every attempt. -/
theorem C7_witness :
    (fetch_product initState "9" 5 (fun _ => .notFound)).attempts = 1 ∧
    (fetch_product initState "9" 5 (fun _ => .notFound)).state.error_count.not_found
      = initState.error_count.not_found + 1 ∧
    (fetch_product initState "9" 5 (fun _ => .notFound)).state.error_count.http_error
      = initState.error_count.http_error ∧
    (fetch_product initState "9" 5 (fun _ => .notFound)).state.error_count.network_error
      = initState.error_count.network_error ∧
    (fetch_product initState "9" 5 (fun _ => .notFound)).state.error_count.rate_limit
      = initState.error_count.rate_limit ∧
    (fetch_product initState "9" 5 (fun _ => .notFound)).result = none ∧
    (∀ d, Event.sleep d ∉ (fetch_product initState "9" 5 (fun _ => .notFound)).trace) :=
  C7_not_found_immediate initState "9" 5 (fun _ => .notFound) (by simp [initState]) rfl

/-- C8: the adaptive rate estimator.  On each 429 signal
`record_rate_limit` increments the consecutive-rate-limit counter; the
delay derived after such a signal equals `min(2 ^ counter, 60)` seconds;
the derived delay is non-decreasing in the counter and capped at 60; on
each success signal the counter decreases by at most 1 and (being a `Nat`)
never goes below 0. -/
theorem C8_adaptive_estimator (c : Nat) :
    SmartRateLimiter.record_rate_limit c = c + 1 ∧
    SmartRateLimiter.get_delay (SmartRateLimiter.record_rate_limit c)
      = min ((2 : ℚ) ^ (c + 1)) 60 ∧
    (∀ c1 c2 : Nat, c1 ≤ c2 →
      SmartRateLimiter.get_delay c1 ≤ SmartRateLimiter.get_delay c2) ∧
    SmartRateLimiter.get_delay c ≤ 60 ∧
    SmartRateLimiter.record_success c ≤ c ∧
    c ≤ SmartRateLimiter.record_success c + 1 := by
  have mono : ∀ c1 c2 : Nat, c1 ≤ c2 →
      SmartRateLimiter.get_delay c1 ≤ SmartRateLimiter.get_delay c2 := by
    intro c1 c2 h
    unfold SmartRateLimiter.get_delay
    rcases Nat.eq_zero_or_pos c1 with h1 | h1
    · subst h1
      rcases Nat.eq_zero_or_pos c2 with h2 | h2
      · subst h2; simp
      · rw [if_neg (by simp), if_pos h2]
        refine le_min ?_ (by norm_num)
        calc (1 : ℚ) / 10 ≤ 1 := by norm_num
        _ ≤ (2 : ℚ) ^ c2 := one_le_pow₀ (by norm_num)
    · rw [if_pos h1, if_pos (lt_of_lt_of_le h1 h)]
      exact min_le_min (pow_le_pow_right₀ (by norm_num) h) le_rfl
  refine ⟨rfl, ?_, mono, ?_, ?_, ?_⟩
  · simp [SmartRateLimiter.get_delay, SmartRateLimiter.record_rate_limit]
  · unfold SmartRateLimiter.get_delay
    split
    · exact min_le_right _ _
    · norm_num
  · unfold SmartRateLimiter.record_success
    split <;> omega
  · unfold SmartRateLimiter.record_success
    split <;> omega

/-- A concrete checkpoint state as `save_results` builds it: two completed
identifiers, three completed batches, two successes. -/
def sampleCheckpoint : CheckpointData :=
  { done_ids := ["1", "2"], last_completed_batch := 3, total_success := 2,
    error_count := ⟨0, 0, 0, 0⟩, timestamp := 0 }

/-- C1 (code bug): saving the structured checkpoint and loading it back
does NOT reproduce the completed-set or the last-completed-batch.
`utils.save_checkpoint` runs `json.dump(list(done_ids))` on the
`checkpoint_data` dict, so the file receives only the five key names; and
`utils.load_checkpoint` returns `set(json.load(f))`, never a dict, so the
structured branch of `TikiCrawler.__init__` is dead and every load lands
in the legacy branch with `last_completed_batch = 0`.  Concretely, saving
`{done_ids: ["1","2"], last_completed_batch: 3, ...}` and loading yields
the completed-set `{"done_ids", "last_completed_batch", "total_success",
"error_count", "timestamp"}` (which does not contain "1") and batch 0
(≠ 3); a structured file loaded directly fares the same. -/
theorem C1_checkpoint_roundtrip_broken :
    (save_checkpoint (checkpointJson sampleCheckpoint)).bind initFromCheckpointFile
      = some (["done_ids", "last_completed_batch", "total_success",
               "error_count", "timestamp"], 0) ∧
    initFromCheckpointFile (checkpointJson sampleCheckpoint)
      = some (["done_ids", "last_completed_batch", "total_success",
               "error_count", "timestamp"], 0) ∧
    "1" ∉ ["done_ids", "last_completed_batch", "total_success",
           "error_count", "timestamp"] ∧
    (0 : Nat) ≠ sampleCheckpoint.last_completed_batch := by
  refine ⟨rfl, rfl, by decide, by decide⟩

/-- A concrete successful response body. -/
def sampleData : ProductData :=
  { id := 7, name := "p", url_key := "p-7", price := 5,
    description := "", images := [] }

/-- C2 (code bug): after a batch containing one identifier that is fetched
successfully, `total_success` is 2, not 1: `fetch_product` increments it on
the 200 response (crawler.py line 138) and `process_batch` adds
`batch_success` on top (line 258), double-counting every success. -/
theorem C2_total_success_double_counted :
    (process_batch initState ["1"] 0 (fun _ _ => .ok sampleData)).1.total_success = 2 ∧
    (process_batch initState ["1"] 0 (fun _ _ => .ok sampleData)).2.1 = 1 ∧
    (process_batch initState ["1"] 0 (fun _ _ => .ok sampleData)).1.results.length = 1 := by
  refine ⟨rfl, rfl, rfl⟩

/-- C4 counterexample: with retry budget 1 and both attempts answered 429,
`fetch_product` consumes 2 attempts but performs exactly one
`RequestSpacer` wait — the wait (crawler.py line 117) sits before the
retry loop, so the second attempt is dispatched without it, contradicting
"applied before every attempt". -/
theorem C4_counterexample :
    (fetch_product initState "1" 1 (fun _ => .rateLimited)).attempts = 2 ∧
    ((fetch_product initState "1" 1 (fun _ => .rateLimited)).trace.count
      Event.spacerWait) = 1 := by
  refine ⟨rfl, rfl⟩

/-- C4 (amended): the minimum inter-request spacing wait is applied
exactly once per fetched identifier, before its first attempt, and never
again before retry attempts; for an identifier skipped via the completed
set it is not applied at all. -/
theorem C4_spacer_once_per_identifier (st : CrawlerState) (pid : String)
    (retry : Nat) (oracle : Nat → AttemptOutcome) :
    if pid ∈ st.done_ids then (fetch_product st pid retry oracle).trace = []
    else ∃ rest, (fetch_product st pid retry oracle).trace = .spacerWait :: rest ∧
           Event.spacerWait ∉ rest := by
  by_cases h : pid ∈ st.done_ids
  · simp [fetch_product, h]
  · obtain ⟨-, -, -, h4, -⟩ :=
      fetchLoop_frame pid ((List.range (retry + 1)).map oracle) st none
    simp only [fetch_product, if_neg h]
    exact ⟨_, rfl, h4⟩

/-- A state in which identifier "1" is already in the completed set. -/
def doneState : CrawlerState := { initState with done_ids := ["1"] }

/-- C5 counterexample: scheduling an identifier that is already in the
completed set DOES hold the bounded pool's admission gate on its behalf —
`bound_fetch` (crawler.py lines 214-216) acquires the semaphore before
`fetch_product` performs the completed-set check, so the trace contains a
semaphore acquisition, contradicting "does not consume a concurrency
slot". -/
theorem C5_counterexample :
    Event.semAcquire "1" ∈ (bound_fetch doneState "1" 3 (fun _ => .rateLimited)).trace ∧
    (bound_fetch doneState "1" 3 (fun _ => .rateLimited)).trace
      = [.semAcquire "1", .semRelease "1"] := by
  refine ⟨by decide, rfl⟩

/-- C5 (amended): for an identifier already in the completed set, the
crawler issues zero network requests, returns no record and leaves the
whole state (counters, result buffer, error tally, completed set)
unchanged; however the concurrency slot IS briefly acquired around the
skip check — the trace is exactly a semaphore acquire/release pair. -/
theorem C5_skip_no_request (st : CrawlerState) (pid : String) (retry : Nat)
    (oracle : Nat → AttemptOutcome) (h : pid ∈ st.done_ids) :
    (bound_fetch st pid retry oracle).result = none ∧
    (bound_fetch st pid retry oracle).state = st ∧
    (bound_fetch st pid retry oracle).trace = [.semAcquire pid, .semRelease pid] ∧
    ∀ q, Event.httpRequest q ∉ (bound_fetch st pid retry oracle).trace := by
  simp [bound_fetch, fetch_product, h]

/-- C5 witness: the amended theorem at the state whose completed set holds
"1", for identifier "1". -/
theorem C5_witness :
    (bound_fetch doneState "1" 0 (fun _ => .ok sampleData)).result = none ∧
    (bound_fetch doneState "1" 0 (fun _ => .ok sampleData)).state = doneState ∧
    (bound_fetch doneState "1" 0 (fun _ => .ok sampleData)).trace
      = [.semAcquire "1", .semRelease "1"] ∧
    (∀ q, Event.httpRequest q ∉
      (bound_fetch doneState "1" 0 (fun _ => .ok sampleData)).trace) :=
  C5_skip_no_request doneState "1" 0 (fun _ => .ok sampleData) (by decide)

/-- Membership in a Python-set insertion. -/
theorem mem_insertId (x a : String) (l : List String) :
    x ∈ insertId a l ↔ x = a ∨ x ∈ l := by
  unfold insertId
  split
  · next h =>
      constructor
      · exact fun hx => Or.inr hx
      · rintro (rfl | hx)
        · exact h
        · exact hx
  · simp [or_comm]

/-- The result loop of `process_batch` (crawler.py lines 221-253): the
results buffer grows by exactly the batch's successful records,
`batch_success` counts exactly those records, and the completed set gains
exactly the string forms of their response-body `id` fields — identifiers
whose fetch failed terminally add nothing to it. -/
theorem processOne_foldl (retry : Nat) (oracle : String → Nat → AttemptOutcome)
    (ids : List String) :
    ∀ (st : CrawlerState) (bsn : Nat) (tr : List Event),
    ∃ new : List FetchResult,
      (ids.foldl (processOne retry oracle) (st, bsn, tr)).1.results
        = st.results ++ new ∧
      (ids.foldl (processOne retry oracle) (st, bsn, tr)).2.1 = bsn + new.length ∧
      (∀ x, x ∈ (ids.foldl (processOne retry oracle) (st, bsn, tr)).1.done_ids ↔
            x ∈ st.done_ids ∨ x ∈ new.map (fun r => toString r.id)) := by
  induction ids with
  | nil => intro st bsn tr; exact ⟨[], by simp, by simp, by simp⟩
  | cons pid rest ih =>
      intro st bsn tr
      rw [List.foldl_cons]
      have hdone : (bound_fetch st pid retry (oracle pid)).state.done_ids
          = st.done_ids := (fetch_product_frame st pid retry (oracle pid)).1
      have hress : (bound_fetch st pid retry (oracle pid)).state.results
          = st.results := (fetch_product_frame st pid retry (oracle pid)).2.1
      cases hr : (bound_fetch st pid retry (oracle pid)).result with
      | none =>
          obtain ⟨new, a1, a2, a3⟩ :=
            ih (bound_fetch st pid retry (oracle pid)).state bsn
              (tr ++ (bound_fetch st pid retry (oracle pid)).trace)
          refine ⟨new, ?_, ?_, ?_⟩
          · simp only [processOne, hr]
            rw [a1, hress]
          · simp only [processOne, hr]
            exact a2
          · intro x
            simp only [processOne, hr]
            rw [a3, hdone]
      | some res =>
          obtain ⟨new, a1, a2, a3⟩ :=
            ih { (bound_fetch st pid retry (oracle pid)).state with
                  results := (bound_fetch st pid retry (oracle pid)).state.results ++ [res],
                  done_ids := insertId (toString res.id)
                    (bound_fetch st pid retry (oracle pid)).state.done_ids }
              (bsn + 1) (tr ++ (bound_fetch st pid retry (oracle pid)).trace)
          refine ⟨res :: new, ?_, ?_, ?_⟩
          · simp only [processOne, hr]
            rw [a1]
            simp [hress]
          · simp only [processOne, hr]
            rw [a2]
            simp [Nat.add_comm, Nat.add_assoc, Nat.add_left_comm]
          · intro x
            simp only [processOne, hr]
            rw [a3]
            simp only [hdone, mem_insertId, List.map_cons, List.mem_cons]
            tauto

/-- A response body whose `id` (99) differs from the requested identifier
("1" in the theorem below). -/
def sampleData99 : ProductData :=
  { id := 99, name := "q", url_key := "q-99", price := 3,
    description := "", images := [] }

/-- C10: only successfully fetched identifiers ever enter the completed
set — after `process_batch` the completed set is the old one plus exactly
`str(result["id"])` of each successful record (the id taken from the API
response body), so terminally-failed identifiers are never added and stay
eligible for a re-fetch.  The concrete conjunct shows the value added is
the response-body id ("99"), not the requested identifier ("1"). -/
theorem C10_done_ids_only_successes (st : CrawlerState) (ids : List String)
    (retry : Nat) (oracle : String → Nat → AttemptOutcome) :
    (∃ new : List FetchResult,
      (process_batch st ids retry oracle).1.results = st.results ++ new ∧
      (process_batch st ids retry oracle).2.1 = new.length ∧
      (∀ x, x ∈ (process_batch st ids retry oracle).1.done_ids ↔
            x ∈ st.done_ids ∨ x ∈ new.map (fun r => toString r.id))) ∧
    (process_batch initState ["1"] 0 (fun _ _ => .ok sampleData99)).1.done_ids
      = ["99"] := by
  obtain ⟨new, a1, a2, a3⟩ := processOne_foldl retry oracle ids st 0 []
  refine ⟨⟨new, ?_, ?_, ?_⟩, rfl⟩
  · simpa [process_batch] using a1
  · simpa [process_batch] using a2
  · intro x
    simpa [process_batch] using a3 x

/-- An API stub for the C3 counterexample: identifier "1" is a 404,
everything else succeeds. -/
def c3Oracle : String → Nat → AttemptOutcome :=
  fun pid _ => if pid = "1" then .notFound else .ok sampleData

/-- The crawler state after batch 1 (identifier "1", a 404) has been
processed and flushed. -/
def c3StateAfterBatch1 : CrawlerState :=
  (save_results (process_batch initState ["1"] 0 c3Oracle).1 1 0).1

/-- The report line appended for batch 2 (identifier "2", one success). -/
def c3Line2 : ReportLine :=
  (save_results (process_batch c3StateAfterBatch1 ["2"] 0 c3Oracle).1 2 0).2.report_line

/-- C3 counterexample: batch 2 consists of one identifier that succeeds —
its own error tally is empty (`not_found` unchanged across batch 2) and
its own success rate would be 100% — yet the appended report line carries
`not_found = 1` (batch 1's cumulative error) and success rate 50%, because
`save_results` (crawler.py lines 266-267 and 291-296) interpolates the
run-cumulative `self.error_count` rather than batch-local counts.  This
refutes the claim that the summary line contains the per-kind error counts
incurred by that batch alone with rate successes/(successes + its own
terminal failures). -/
theorem C3_counterexample :
    (process_batch c3StateAfterBatch1 ["2"] 0 c3Oracle).1.error_count.not_found
      = c3StateAfterBatch1.error_count.not_found ∧
    c3StateAfterBatch1.error_count.not_found = 1 ∧
    (process_batch c3StateAfterBatch1 ["2"] 0 c3Oracle).2.1 = 1 ∧
    c3Line2.not_found = 1 ∧
    c3Line2.success_rate = 50 ∧
    c3Line2.success_rate ≠ 100 := by
  have hlen : (process_batch c3StateAfterBatch1 ["2"] 0 c3Oracle).1.results.length = 1 := rfl
  have htot : (process_batch c3StateAfterBatch1 ["2"] 0 c3Oracle).1.error_count.total = 1 := rfl
  have h50 : c3Line2.success_rate = 50 := by
    simp only [c3Line2, save_results]
    rw [hlen, htot]
    norm_num
  refine ⟨rfl, rfl, rfl, rfl, h50, ?_⟩
  rw [h50]
  norm_num

/-- C3 (amended): the appended report-log line for a completed batch
carries the run-cumulative per-kind error counts (all terminal failures
since the crawler started, not this batch's alone), and its success rate
equals (this batch's successes) / (this batch's successes + all terminal
failures of the run so far) * 100, or 0 if that denominator is zero —
assuming the result buffer was empty when the batch began, as `run`
guarantees. -/
theorem C3_report_line_cumulative (st : CrawlerState) (ids : List String)
    (retry k : Nat) (oracle : String → Nat → AttemptOutcome) (ts : ℚ)
    (h : st.results = []) :
    (save_results (process_batch st ids retry oracle).1 k ts).2.report_line.http_error
      = (process_batch st ids retry oracle).1.error_count.http_error ∧
    (save_results (process_batch st ids retry oracle).1 k ts).2.report_line.network_error
      = (process_batch st ids retry oracle).1.error_count.network_error ∧
    (save_results (process_batch st ids retry oracle).1 k ts).2.report_line.not_found
      = (process_batch st ids retry oracle).1.error_count.not_found ∧
    (save_results (process_batch st ids retry oracle).1 k ts).2.report_line.rate_limit
      = (process_batch st ids retry oracle).1.error_count.rate_limit ∧
    (save_results (process_batch st ids retry oracle).1 k ts).2.report_line.success_rate
      = (if 0 < (process_batch st ids retry oracle).2.1
             + (process_batch st ids retry oracle).1.error_count.total
         then (((process_batch st ids retry oracle).2.1 : ℚ) /
               (((process_batch st ids retry oracle).2.1 : ℚ)
                 + ((process_batch st ids retry oracle).1.error_count.total : ℚ))) * 100
         else 0) := by
  obtain ⟨new, a1, a2, -⟩ := processOne_foldl retry oracle ids st 0 []
  have hlen : (process_batch st ids retry oracle).1.results.length
      = (process_batch st ids retry oracle).2.1 := by
    have e1 : (process_batch st ids retry oracle).1.results
        = st.results ++ new := by simpa [process_batch] using a1
    have e2 : (process_batch st ids retry oracle).2.1 = new.length := by
      simpa [process_batch] using a2
    rw [e1, e2, h]
    simp
  refine ⟨rfl, rfl, rfl, rfl, ?_⟩
  simp only [save_results]
  rw [hlen]
  push_cast
  rfl

/-- C3 witness: the amended theorem at the fresh state, batch ["1"] with a
404 answer, flushed as batch 1. -/
theorem C3_witness :
    (save_results (process_batch initState ["1"] 0 (fun _ _ => .notFound)).1 1 0).2.report_line.http_error
      = (process_batch initState ["1"] 0 (fun _ _ => .notFound)).1.error_count.http_error ∧
    (save_results (process_batch initState ["1"] 0 (fun _ _ => .notFound)).1 1 0).2.report_line.network_error
      = (process_batch initState ["1"] 0 (fun _ _ => .notFound)).1.error_count.network_error ∧
    (save_results (process_batch initState ["1"] 0 (fun _ _ => .notFound)).1 1 0).2.report_line.not_found
      = (process_batch initState ["1"] 0 (fun _ _ => .notFound)).1.error_count.not_found ∧
    (save_results (process_batch initState ["1"] 0 (fun _ _ => .notFound)).1 1 0).2.report_line.rate_limit
      = (process_batch initState ["1"] 0 (fun _ _ => .notFound)).1.error_count.rate_limit ∧
    (save_results (process_batch initState ["1"] 0 (fun _ _ => .notFound)).1 1 0).2.report_line.success_rate
      = (if 0 < (process_batch initState ["1"] 0 (fun _ _ => .notFound)).2.1
             + (process_batch initState ["1"] 0 (fun _ _ => .notFound)).1.error_count.total
         then (((process_batch initState ["1"] 0 (fun _ _ => .notFound)).2.1 : ℚ) /
               (((process_batch initState ["1"] 0 (fun _ _ => .notFound)).2.1 : ℚ)
                 + ((process_batch initState ["1"] 0 (fun _ _ => .notFound)).1.error_count.total : ℚ))) * 100
         else 0) :=
  C3_report_line_cumulative initState ["1"] 0 1 (fun _ _ => .notFound) 0 rfl

/-- `numBatches` with a positive batch size, without the truncated
subtraction. -/
theorem numBatches_succ (len b : Nat) :
    numBatches len (b + 1) = (len + b) / (b + 1) := by
  unfold numBatches
  have h : len + (b + 1) - 1 = len + b := by omega
  rw [h]

/-- The 1-based batch slices are consecutive and non-overlapping: joined
in order they give back the identifier sequence. -/
theorem join_chunks (b : Nat) (ids : List String) :
    ((List.range (numBatches ids.length (b + 1))).map
      (fun j => (ids.drop (j * (b + 1))).take (b + 1))).flatten = ids := by
  suffices h : ∀ (n : Nat) (l : List String), l.length = n →
      ((List.range (numBatches l.length (b + 1))).map
        (fun j => (l.drop (j * (b + 1))).take (b + 1))).flatten = l by
    exact h ids.length ids rfl
  intro n
  induction n using Nat.strong_induction_on with
  | _ n ih =>
    intro l hlen
    cases l with
    | nil =>
        have h0 : numBatches (List.length ([] : List String)) (b + 1) = 0 := by
          unfold numBatches
          simp only [List.length_nil]
          have he : 0 + (b + 1) - 1 = b := by omega
          rw [he]
          exact Nat.div_eq_of_lt (by omega)
        simp [h0]
    | cons x t =>
        have hL : 1 ≤ (x :: t).length := by simp
        have hnb : numBatches (x :: t).length (b + 1)
            = numBatches ((x :: t).length - (b + 1)) (b + 1) + 1 := by
          rw [numBatches_succ, numBatches_succ]
          rcases Nat.le_total (x :: t).length (b + 1) with hc | hc
          · have h1 : (x :: t).length - (b + 1) = 0 := by omega
            rw [h1]
            have h2 : (0 + b) / (b + 1) = 0 := Nat.div_eq_of_lt (by omega)
            rw [h2]
            exact Nat.div_eq_of_lt_le (by omega) (by omega)
          · have h3 : (x :: t).length + b
                = ((x :: t).length - (b + 1) + b) + (b + 1) := by omega
            rw [h3, Nat.add_div_right _ (by omega)]
        rw [hnb, List.range_succ_eq_map, List.map_cons, List.map_map, List.flatten_cons]
        have hfun : ((fun j => ((x :: t).drop (j * (b + 1))).take (b + 1)) ∘ Nat.succ)
            = fun j => (((x :: t).drop (b + 1)).drop (j * (b + 1))).take (b + 1) := by
          funext j
          simp only [Function.comp_apply, List.drop_drop]
          rw [Nat.succ_mul, Nat.add_comm (j * (b + 1)) (b + 1)]
        rw [hfun]
        have hdl : ((x :: t).drop (b + 1)).length = (x :: t).length - (b + 1) := by
          simp
        have hrec := ih ((x :: t).length - (b + 1))
          (by omega) ((x :: t).drop (b + 1)) hdl
        rw [hdl] at hrec
        rw [Nat.zero_mul, List.drop_zero, hrec, List.take_append_drop]

/-- `Forall₂` read from the right: every element of the right list is
related to some element of the left. -/
theorem forall2_mem_right {α β : Type} {R : α → β → Prop} :
    ∀ {l1 : List α} {l2 : List β}, List.Forall₂ R l1 l2 →
    ∀ y ∈ l2, ∃ x ∈ l1, R x y := by
  intro l1 l2 h
  induction h with
  | nil => simp
  | cons hab _ ihtl =>
      intro y hy
      rcases List.mem_cons.mp hy with rfl | hy
      · exact ⟨_, by simp, hab⟩
      · obtain ⟨x, hx, hr⟩ := ihtl y hy
        exact ⟨x, by simp [hx], hr⟩

/-- The structure of `runLoop` over consecutive batch starts: its trace is
a concatenation of per-batch blocks, one for each batch index above the
current `last_completed_batch` (in order), each block being the batch's
processing events followed by the flush, checkpoint-write and
report-append of `save_results`. -/
theorem runLoop_blocks (ids : List String) (b retry : Nat)
    (oracle : String → Nat → AttemptOutcome) (ts : ℚ) :
    ∀ (n a : Nat) (st : CrawlerState),
    ∃ blocks : List (List RunEvent),
      (runLoop ids (b + 1) retry oracle ts
        ((List.range' a n).map (· * (b + 1))) st).2 = blocks.flatten ∧
      List.Forall₂ (fun k block =>
          (∀ e ∈ block, RunEvent.batch e = k) ∧
          ∃ inner : List Event, block = inner.map (RunEvent.act k) ++
            [RunEvent.flush k, RunEvent.checkpointWrite k, RunEvent.reportAppend k])
        ((List.range' (a + 1) n).filter (fun k => st.last_completed_batch < k))
        blocks := by
  intro n
  induction n with
  | zero => intro a st; exact ⟨[], by simp [runLoop], by simp⟩
  | succ n ih =>
      intro a st
      rw [List.range'_succ, List.range'_succ, List.map_cons]
      have hk : a * (b + 1) / (b + 1) = a := Nat.mul_div_cancel a (by omega)
      by_cases hle : a + 1 ≤ st.last_completed_batch
      · have hp : ¬ st.last_completed_batch < a + 1 := by omega
        obtain ⟨blocks, h1, h2⟩ := ih (a + 1) st
        refine ⟨blocks, ?_, ?_⟩
        · simp only [runLoop, hk]
          rw [if_pos hle]
          exact h1
        · simpa [List.filter_cons, hp] using h2
      · have hgt : st.last_completed_batch < a + 1 := by omega
        obtain ⟨blocks, h1, h2⟩ := ih (a + 1)
          (save_results (process_batch st ((ids.drop (a * (b + 1))).take (b + 1))
            retry oracle).1 (a + 1) ts).1
        have hLafter : (save_results (process_batch st
            ((ids.drop (a * (b + 1))).take (b + 1)) retry oracle).1
            (a + 1) ts).1.last_completed_batch = a + 1 := by
          simp [save_results]
        rw [hLafter] at h2
        have hkeep : (List.range' (a + 2) n).filter
            (fun k => decide (a + 1 < k)) = List.range' (a + 2) n := by
          rw [List.filter_eq_self]
          intro x hx
          have hx2 : a + 2 ≤ x := (List.mem_range'_1.mp hx).1
          simp only [decide_eq_true_eq]
          omega
        rw [hkeep] at h2
        refine ⟨((process_batch st ((ids.drop (a * (b + 1))).take (b + 1))
            retry oracle).2.2.map (RunEvent.act (a + 1)) ++
            [RunEvent.flush (a + 1), RunEvent.checkpointWrite (a + 1),
             RunEvent.reportAppend (a + 1)]) :: blocks, ?_, ?_⟩
        · simp only [runLoop, hk]
          rw [if_neg (by omega)]
          simp only [List.flatten_cons]
          rw [h1]
        · have htail : (List.range' (a + 2) n).filter
              (fun k => decide (st.last_completed_batch < k))
              = List.range' (a + 2) n := by
            rw [List.filter_eq_self]
            intro x hx
            have hx2 : a + 2 ≤ x := (List.mem_range'_1.mp hx).1
            simp only [decide_eq_true_eq]
            omega
          have hdec : decide (st.last_completed_batch < a + 1) = true := by
            simp [hgt]
          rw [List.filter_cons, if_pos hdec, htail]
          refine List.Forall₂.cons ⟨?_, ?_⟩ h2
          · intro e he
            rcases List.mem_append.mp he with h | h
            · obtain ⟨x, -, rfl⟩ := List.mem_map.mp h
              rfl
            · simp only [List.mem_cons, List.not_mem_nil, or_false] at h
              rcases h with rfl | rfl | rfl <;> rfl
          · exact ⟨_, rfl⟩

/-- C9: the batch scheduler.  For any positive batch size `b + 1`
(`batch_size = 0` raises `ValueError` in Python's `range` and is not a
run):  (i) the 1-based batch slices `ids[(k-1)*bs : k*bs]` are consecutive
and non-overlapping — concatenated in index order they give back the whole
identifier sequence;  (ii) the processed batch indices (those above the
checkpoint's last-completed-batch) are strictly increasing;  (iii) every
batch whose index is ≤ the checkpoint's last-completed-batch is skipped
entirely — every event of the run, fetch attempts included, belongs to a
batch index above it;  (iv) the run trace is a concatenation of per-batch
blocks, one per processed index in increasing order, each block being that
batch's processing events followed by its output flush, checkpoint write
and report append — so batch N+1's processing starts only after batch N's
flush and checkpoint write have completed. -/
theorem C9_batch_scheduler (st : CrawlerState) (ids : List String)
    (b retry : Nat) (oracle : String → Nat → AttemptOutcome) (ts : ℚ) :
    ((List.range (numBatches ids.length (b + 1))).map
        (fun j => (ids.drop (j * (b + 1))).take (b + 1))).flatten = ids ∧
    List.Pairwise (· < ·)
      ((List.range' 1 (numBatches ids.length (b + 1))).filter
        (fun k => st.last_completed_batch < k)) ∧
    (∀ e ∈ (run st ids (b + 1) retry oracle ts).2,
      st.last_completed_batch < RunEvent.batch e) ∧
    ∃ blocks : List (List RunEvent),
      (run st ids (b + 1) retry oracle ts).2 = blocks.flatten ∧
      List.Forall₂ (fun k block =>
          (∀ e ∈ block, RunEvent.batch e = k) ∧
          ∃ inner : List Event, block = inner.map (RunEvent.act k) ++
            [RunEvent.flush k, RunEvent.checkpointWrite k, RunEvent.reportAppend k])
        ((List.range' 1 (numBatches ids.length (b + 1))).filter
          (fun k => st.last_completed_batch < k))
        blocks := by
  have hrun : (run st ids (b + 1) retry oracle ts)
      = runLoop ids (b + 1) retry oracle ts
          ((List.range' 0 (numBatches ids.length (b + 1))).map (· * (b + 1))) st := by
    unfold run pyRangeStarts numBatches
    rw [List.range_eq_range']
  obtain ⟨blocks, h1, h2⟩ := runLoop_blocks ids b retry oracle ts
    (numBatches ids.length (b + 1)) 0 st
  refine ⟨join_chunks b ids, ?_, ?_, ⟨blocks, ?_, ?_⟩⟩
  · exact (List.pairwise_lt_range' 1 (numBatches ids.length (b + 1))).filter _
  · intro e he
    rw [hrun] at he
    rw [h1] at he
    obtain ⟨bl, hbl, hebl⟩ := List.mem_flatten.mp he
    obtain ⟨k, hk, hprop⟩ := forall2_mem_right h2 bl hbl
    have hbatch : RunEvent.batch e = k := hprop.1 e hebl
    have hdec := (List.mem_filter.mp hk).2
    rw [hbatch]
    simpa using hdec
  · rw [hrun]
    exact h1
  · exact h2

end Tiki
